import Mathlib

/-!
Verification of the MCSOLOL panel core: the real-time console/lifecycle
subsystem (LogStore merge, StreamClient reconnect, ConnectionProxy, and the
PortConflictResolver gate in front of the start command).

The definitions below are shallow embeddings of the TypeScript handlers in
`panel/src/app/dashboard/page.tsx` (dashboard page: port-conflict gate and
port-change flow), the console page (LogStore merge, EventSource reconnect
state machine), the SSE console relay route, and the WebSocket proxy route.
Network responses and timers are made explicit parameters or outputs; the
list of issued HTTP requests is returned as a command trace.
-/

namespace MCSOLOL

/-- Server lifecycle status, from the status union type of ServerListItem in
the dashboard page. -/
inductive Status
  | running
  | stopped
  | starting
  | stopping
deriving DecidableEq, Repr

/-- Player counts of a ServerListItem. -/
structure Players where
  online : Nat
  max : Nat
deriving DecidableEq, Repr

/-- One entry of the locally known server list (interface ServerListItem in
the dashboard page). The port is kept as a string, as in the source. -/
structure ServerListItem where
  id : String
  name : String
  motd : String
  status : Status
  players : Players
  version : String
  port : String
deriving DecidableEq, Repr

/-- A network request issued by the dashboard handlers: a lifecycle control
POST, a server-properties POST, or a refresh GET of the server list. -/
inductive Cmd
  | control (serverId : String) (action : String)
  | propsUpdate (serverId : String) (port : String)
  | fetchList
deriving DecidableEq, Repr

/-- Result of running a dashboard handler: the trace of issued requests, and
the port-conflict dialog state it opens (some (conflicting, current)), or
none when the conflict state is left untouched. -/
structure ActionResult where
  cmds : List Cmd
  conflict : Option (ServerListItem × ServerListItem)
deriving DecidableEq, Repr

/-- The predicate of the conflict scan in handleServerAction:
s.status === "running" && s.port === server.port && s.id !== server.id. -/
def isConflict (server s : ServerListItem) : Bool :=
  s.status == Status.running && s.port == server.port && s.id != server.id

/-- servers.find(...) over the conflict predicate, as in handleServerAction. -/
def findConflict (servers : List ServerListItem) (server : ServerListItem) :
    Option ServerListItem :=
  servers.find? (isConflict server)

/-- The dashboard handleServerAction. On a start request it scans the locally
known list for a running server on the same port with a different id; if one
is found it opens the conflict dialog and issues nothing, otherwise it POSTs
the control action and, when the response is ok (ctrlOk), refreshes the list. -/
def handleServerAction (servers : List ServerListItem) (server : ServerListItem)
    (action : String) (ctrlOk : Bool) : ActionResult :=
  if action == "start" then
    match findConflict servers server with
    | some t => ⟨[], some (t, server)⟩
    | none =>
        ⟨Cmd.control server.id action :: (if ctrlOk then [Cmd.fetchList] else []), none⟩
  else
    ⟨Cmd.control server.id action :: (if ctrlOk then [Cmd.fetchList] else []), none⟩

/-- The dashboard handleChangePort: for the current server of the conflict
state it POSTs the properties update with the new port; when that response is
ok (propsOk) it refreshes the list and then calls handleServerAction with the
captured current server object (whose port field is still the old value) and
the captured servers list. -/
def handleChangePort (current : Option ServerListItem) (servers : List ServerListItem)
    (newPort : String) (propsOk ctrlOk : Bool) : ActionResult :=
  match current with
  | none => ⟨[], none⟩
  | some server =>
    if propsOk then
      let r := handleServerAction servers server "start" ctrlOk
      ⟨Cmd.propsUpdate server.id newPort :: Cmd.fetchList :: r.cmds, r.conflict⟩
    else
      ⟨[Cmd.propsUpdate server.id newPort], none⟩

/-- The disabled condition of the Change Port button in PortConflictDialog:
isSubmitting || !newPort || newPort === currentServer.port. -/
def changePortDisabled (isSubmitting : Bool) (newPort currentPort : String) : Bool :=
  isSubmitting || newPort == "" || newPort == currentPort

/-- Bridge between the Bool conflict predicate and its propositional form. -/
theorem isConflict_iff (server s : ServerListItem) :
    isConflict server s = true ↔
      s.status = Status.running ∧ s.port = server.port ∧ s.id ≠ server.id := by
  simp [isConflict, Bool.and_eq_true, and_assoc]

/-- Demo server X of Scenario B: running on port 25565. -/
def Xdemo : ServerListItem :=
  ⟨"x", "X", "motd", Status.running, ⟨0, 20⟩, "1.20", "25565"⟩

/-- Demo server Y of Scenario B: stopped, configured for port 25565. -/
def Ydemo : ServerListItem :=
  ⟨"y", "Y", "motd", Status.stopped, ⟨0, 20⟩, "1.20", "25565"⟩

/-- Demo server Y after the backend applied the new port 25566. -/
def Ynew : ServerListItem :=
  ⟨"y", "Y", "motd", Status.stopped, ⟨0, 20⟩, "1.20", "25566"⟩

/-- Claim C1: for every start request for a server S, if some other server T
with a different id appears in the locally known list with status running and
an equal port, then no control command is issued and the conflict state opens
with conflictingServer = T (a matching list member) and currentServer = S; if
no such T exists, the start command is issued. -/
theorem start_gate_port_conflict (servers : List ServerListItem)
    (S : ServerListItem) (ok : Bool) :
    ((∃ T ∈ servers, T.status = Status.running ∧ T.port = S.port ∧ T.id ≠ S.id) →
      (handleServerAction servers S "start" ok).cmds = [] ∧
      ∃ T ∈ servers, T.status = Status.running ∧ T.port = S.port ∧ T.id ≠ S.id ∧
        (handleServerAction servers S "start" ok).conflict = some (T, S)) ∧
    ((¬ ∃ T ∈ servers, T.status = Status.running ∧ T.port = S.port ∧ T.id ≠ S.id) →
      (handleServerAction servers S "start" ok).cmds.head? =
        some (Cmd.control S.id "start") ∧
      (handleServerAction servers S "start" ok).conflict = none) := by
  constructor
  · intro h
    have hs : (findConflict servers S).isSome := by
      rw [findConflict, List.find?_isSome]
      obtain ⟨T, hT, hc⟩ := h
      exact ⟨T, hT, (isConflict_iff S T).mpr hc⟩
    obtain ⟨T, hT⟩ := Option.isSome_iff_exists.mp hs
    have hmem : T ∈ servers := List.mem_of_find?_eq_some hT
    have hp := (isConflict_iff S T).mp (List.find?_some hT)
    have hfc : findConflict servers S = some T := hT
    refine ⟨?_, T, hmem, hp.1, hp.2.1, hp.2.2, ?_⟩ <;>
      simp [handleServerAction, hfc]
  · intro h
    have hfc : findConflict servers S = none := by
      rw [findConflict, List.find?_eq_none]
      intro T hT hc
      exact h ⟨T, hT, (isConflict_iff S T).mp hc⟩
    simp [handleServerAction, hfc]

/-- Witness for C1 at Scenario B data: starting Ydemo against [Xdemo, Ydemo]
opens the conflict dialog and issues nothing; starting Ydemo against [Ydemo]
alone issues the start control command. -/
theorem start_gate_port_conflict_witness :
    ((handleServerAction [Xdemo, Ydemo] Ydemo "start" true).cmds = [] ∧
      ∃ T ∈ [Xdemo, Ydemo], T.status = Status.running ∧ T.port = Ydemo.port ∧
        T.id ≠ Ydemo.id ∧
        (handleServerAction [Xdemo, Ydemo] Ydemo "start" true).conflict =
          some (T, Ydemo)) ∧
    ((handleServerAction [Ydemo] Ydemo "start" true).cmds.head? =
        some (Cmd.control Ydemo.id "start") ∧
      (handleServerAction [Ydemo] Ydemo "start" true).conflict = none) :=
  ⟨(start_gate_port_conflict [Xdemo, Ydemo] Ydemo true).1 (by decide),
   (start_gate_port_conflict [Ydemo] Ydemo true).2 (by decide)⟩

/-- Claim C10: the conflict scan matches only servers whose status is exactly
running. If no running server shares the port, the start command is issued
and the dialog is not opened, even when some server in status starting or
stopping shares the port with a different id. -/
theorem start_gate_ignores_non_running (servers : List ServerListItem)
    (S : ServerListItem) (ok : Bool)
    (hnone : ∀ T ∈ servers, ¬(T.status = Status.running ∧ T.port = S.port ∧ T.id ≠ S.id))
    (_hshare : ∃ T ∈ servers, (T.status = Status.starting ∨ T.status = Status.stopping) ∧
      T.port = S.port ∧ T.id ≠ S.id) :
    (handleServerAction servers S "start" ok).cmds.head? =
      some (Cmd.control S.id "start") ∧
    (handleServerAction servers S "start" ok).conflict = none := by
  have hfc : findConflict servers S = none := by
    rw [findConflict, List.find?_eq_none]
    intro T hT hc
    exact hnone T hT ((isConflict_iff S T).mp hc)
  simp [handleServerAction, hfc]

/-- Demo server in status starting on the same port as Ydemo. -/
def Zstarting : ServerListItem :=
  ⟨"z", "Z", "motd", Status.starting, ⟨0, 20⟩, "1.20", "25565"⟩

/-- Witness for C10: with Zstarting (status starting, port 25565) in the
list, starting Ydemo issues the control command without opening the dialog. -/
theorem start_gate_ignores_non_running_witness :
    (handleServerAction [Zstarting, Ydemo] Ydemo "start" true).cmds.head? =
      some (Cmd.control Ydemo.id "start") ∧
    (handleServerAction [Zstarting, Ydemo] Ydemo "start" true).conflict = none :=
  start_gate_ignores_non_running [Zstarting, Ydemo] Ydemo true
    (by decide) (by decide)

/-- Claim C2, evaluated on the code at Scenario B: after the properties update
for Ydemo succeeds, the retried start runs against the captured current-server
object whose port field is still 25565, so the scan re-detects the conflict
with Xdemo, re-opens the dialog, and the start control command is never
issued. The last conjunct shows this also holds against a refreshed list in
which Y already carries port 25566, because the captured object is stale. -/
theorem scenarioB_start_not_issued :
    (handleChangePort (some Ydemo) [Xdemo, Ydemo] "25566" true true).cmds =
      [Cmd.propsUpdate Ydemo.id "25566", Cmd.fetchList] ∧
    (handleChangePort (some Ydemo) [Xdemo, Ydemo] "25566" true true).conflict =
      some (Xdemo, Ydemo) ∧
    Cmd.control Ydemo.id "start" ∉
      (handleChangePort (some Ydemo) [Xdemo, Ydemo] "25566" true true).cmds ∧
    (handleServerAction [Xdemo, Ynew] Ydemo "start" true).cmds = [] := by
  decide

/-- Claim C9 counterexample: the out-of-range port 80 is not rejected before
the network call. The Change Port button is enabled (the only gating is
non-empty and different from the current port), and handleChangePort issues
the properties-update request with the out-of-range value. -/
theorem out_of_range_port_not_rejected :
    changePortDisabled false "80" Ydemo.port = false ∧
    (handleChangePort (some Ydemo) [Xdemo, Ydemo] "80" true true).cmds.head? =
      some (Cmd.propsUpdate Ydemo.id "80") ∧
    (80 : Nat) < 1024 := by
  decide

/-- Claim C9 amended: the dialog gates the Change Port action only on the
proposed port being non-empty and different from the current port (and no
submission in flight); for every such value, in range or not, the
properties-update request is issued as the first network call. -/
theorem change_port_gate_amended (S : ServerListItem)
    (servers : List ServerListItem) (newPort : String) (ctrlOk : Bool)
    (h1 : newPort ≠ "") (h2 : newPort ≠ S.port) :
    changePortDisabled false newPort S.port = false ∧
    (handleChangePort (some S) servers newPort true ctrlOk).cmds.head? =
      some (Cmd.propsUpdate S.id newPort) := by
  constructor
  · simp [changePortDisabled, h1, h2]
  · simp [handleChangePort]

/-- Witness for the amended C9 at the concrete out-of-range value 80. -/
theorem change_port_gate_amended_witness :
    changePortDisabled false "80" Xdemo.port = false ∧
    (handleChangePort (some Xdemo) [Xdemo, Ydemo] "80" true true).cmds.head? =
      some (Cmd.propsUpdate Xdemo.id "80") :=
  change_port_gate_amended Xdemo [Xdemo, Ydemo] "80" true
    (by decide) (by decide)

/-- Log entry type tag of the console page LogEntry interface. -/
inductive LogType
  | info
  | warning
  | error
  | command
deriving DecidableEq, Repr

/-- A log entry of the console page: timestamp, type and raw content. -/
structure LogEntry where
  timestamp : String
  type : LogType
  content : String
deriving DecidableEq, Repr

/-- The duplicate test of the onmessage handler:
log.timestamp === newLog.timestamp && log.content === newLog.content. -/
def sameEntry (l e : LogEntry) : Bool :=
  l.timestamp == e.timestamp && l.content == e.content

/-- One iteration of the data.logs.forEach loop of the onmessage handler.
The accumulator carries the newLogs array together with the updated flag; a
candidate is pushed at the end only when no entry of the current array shares
its timestamp and content. -/
def dedupStep (acc : List LogEntry × Bool) (e : LogEntry) : List LogEntry × Bool :=
  if acc.1.any (fun l => sameEntry l e) then acc else (acc.1 ++ [e], true)

/-- The whole forEach loop, started from the copied previous store and
updated = false. -/
def mergeBatch (prev batch : List LogEntry) : List LogEntry × Bool :=
  batch.foldl dedupStep (prev, false)

/-- slice(-1000): keep only the last n entries of the array. -/
def lastN (n : Nat) (l : List LogEntry) : List LogEntry :=
  l.drop (l.length - n)

/-- The store update performed by one onmessage event carrying a non-empty
batch: merge with dedup, and when at least one entry was appended keep only
the last 1000 entries; otherwise return the previous store unchanged. -/
def mergeLogsMsg (prev batch : List LogEntry) : List LogEntry :=
  if batch.length > 0 then
    if (mergeBatch prev batch).2 then lastN 1000 (mergeBatch prev batch).1 else prev
  else prev

/-- The optimistic local append performed by handleServerAction of the
console page: setLogs(prev => [...prev, entry]). Note that this path applies
no capacity trim. -/
def consoleLocalAppend (logs : List LogEntry) (e : LogEntry) : List LogEntry :=
  logs ++ [e]

/-- Bridge between the Bool duplicate test and its propositional form. -/
theorem sameEntry_iff (l e : LogEntry) :
    sameEntry l e = true ↔ l.timestamp = e.timestamp ∧ l.content = e.content := by
  simp [sameEntry]

/-- The updated flag never falls back from true to false. -/
theorem dedupStep_snd_true (acc : List LogEntry × Bool) (e : LogEntry)
    (h : acc.2 = true) : (dedupStep acc e).2 = true := by
  unfold dedupStep
  split <;> simp [h]

/-- The updated flag is monotone along the whole loop. -/
theorem foldl_dedupStep_snd_true (batch : List LogEntry) :
    ∀ acc : List LogEntry × Bool, acc.2 = true →
      (batch.foldl dedupStep acc).2 = true := by
  induction batch with
  | nil => intro acc h; simpa using h
  | cons e rest ih =>
      intro acc h
      rw [List.foldl_cons]
      exact ih _ (dedupStep_snd_true acc e h)

/-- If the loop reports updated = false, it appended nothing: the result is
the initial accumulator. -/
theorem foldl_dedupStep_false (batch : List LogEntry) :
    ∀ acc : List LogEntry × Bool, (batch.foldl dedupStep acc).2 = false →
      batch.foldl dedupStep acc = acc := by
  induction batch with
  | nil => intro acc _; rfl
  | cons e rest ih =>
      intro acc h
      rw [List.foldl_cons] at h ⊢
      by_cases hc : (acc.1.any fun l => sameEntry l e) = true
      · have hstep : dedupStep acc e = acc := by simp [dedupStep, hc]
        rw [hstep] at h ⊢
        exact ih acc h
      · have hstep : dedupStep acc e = (acc.1 ++ [e], true) := by
          simp [dedupStep, hc]
        rw [hstep] at h
        have htrue := foldl_dedupStep_snd_true rest (acc.1 ++ [e], true) rfl
        rw [h] at htrue
        cases htrue


/-- A batch consisting only of entries already present in prev appends
nothing, for any initial flag. -/
theorem foldl_dedupStep_all_dup (prev : List LogEntry) (flag : Bool) :
    ∀ batch : List LogEntry,
      (∀ e ∈ batch, ∃ p ∈ prev, p.timestamp = e.timestamp ∧ p.content = e.content) →
      batch.foldl dedupStep (prev, flag) = (prev, flag) := by
  intro batch
  induction batch with
  | nil => intro _; rfl
  | cons e rest ih =>
      intro h
      obtain ⟨p, hp, h1, h2⟩ := h e (by simp)
      have hc : ((prev, flag).1.any fun l => sameEntry l e) = true := by
        simp only [List.any_eq_true]
        exact ⟨p, hp, (sameEntry_iff p e).mpr ⟨h1, h2⟩⟩
      have hstep : dedupStep (prev, flag) e = (prev, flag) := by
        simp [dedupStep, hc]
      rw [List.foldl_cons, hstep]
      exact ih (fun x hx => h x (by simp [hx]))

/-- Scenario A entry a at timestamp 1. -/
def entryA1 : LogEntry := ⟨"1", LogType.info, "a"⟩

/-- Scenario A entry b at timestamp 2. -/
def entryB2 : LogEntry := ⟨"2", LogType.info, "b"⟩

/-- Claim C3: in the onmessage merge, a candidate is appended exactly when no
entry of the store as accumulated so far shares its timestamp and content; a
batch of only already-stored entries leaves the store unchanged; and Scenario
A: receiving the batch [a@1] and then the batch [a@1, b@2] yields the final
store [a@1, b@2]. -/
theorem logstore_dedup_merge :
    (∀ (acc : List LogEntry) (flag : Bool) (e : LogEntry),
      ((∃ p ∈ acc, p.timestamp = e.timestamp ∧ p.content = e.content) →
        dedupStep (acc, flag) e = (acc, flag)) ∧
      ((¬ ∃ p ∈ acc, p.timestamp = e.timestamp ∧ p.content = e.content) →
        dedupStep (acc, flag) e = (acc ++ [e], true))) ∧
    (∀ prev batch : List LogEntry,
      (∀ e ∈ batch, ∃ p ∈ prev, p.timestamp = e.timestamp ∧ p.content = e.content) →
      mergeBatch prev batch = (prev, false) ∧ mergeLogsMsg prev batch = prev) ∧
    mergeLogsMsg (mergeLogsMsg [] [entryA1]) [entryA1, entryB2] =
      [entryA1, entryB2] := by
  refine ⟨?_, ?_, by decide⟩
  · intro acc flag e
    constructor
    · intro h
      obtain ⟨p, hp, h1, h2⟩ := h
      have hc : (acc.any fun l => sameEntry l e) = true := by
        simp only [List.any_eq_true]
        exact ⟨p, hp, (sameEntry_iff p e).mpr ⟨h1, h2⟩⟩
      simp [dedupStep, hc]
    · intro h
      have hc : (acc.any fun l => sameEntry l e) = false := by
        by_contra hne
        rw [Bool.not_eq_false, List.any_eq_true] at hne
        obtain ⟨p, hp, hpe⟩ := hne
        exact h ⟨p, hp, (sameEntry_iff p e).mp hpe⟩
      simp [dedupStep, hc]
  · intro prev batch h
    have hfold : mergeBatch prev batch = (prev, false) :=
      foldl_dedupStep_all_dup prev false batch h
    exact ⟨hfold, by simp [mergeLogsMsg, hfold]⟩

/-- Witness for C3 at concrete entries: a duplicate of a@1 is skipped, a
fresh b@2 is appended with the updated flag set, and merging the batch [a@1]
into the store [a@1] leaves it unchanged. -/
theorem logstore_dedup_merge_witness :
    dedupStep ([entryA1], false) entryA1 = ([entryA1], false) ∧
    dedupStep ([entryA1], false) entryB2 = ([entryA1] ++ [entryB2], true) ∧
    mergeLogsMsg [entryA1] [entryA1] = [entryA1] :=
  ⟨(logstore_dedup_merge.1 [entryA1] false entryA1).1 (by decide),
   (logstore_dedup_merge.1 [entryA1] false entryB2).2 (by decide),
   (logstore_dedup_merge.2.1 [entryA1] [entryA1] (by decide)).2⟩

/-- A store of 1000 pairwise distinct entries. -/
def bigStore : List LogEntry :=
  (List.range 1000).map (fun i => ⟨toString i, LogType.info, "x"⟩)

/-- Claim C4 counterexample: the local command append of handleServerAction
on the console page performs no capacity trim, so appending one entry to a
store already holding 1000 leaves 1001 entries — more than the claimed
capacity bound. -/
theorem capacity_bound_violated :
    (consoleLocalAppend bigStore ⟨"t", LogType.command, "Starting server..."⟩).length
      = 1001 ∧
    1000 <
      (consoleLocalAppend bigStore ⟨"t", LogType.command, "Starting server..."⟩).length := by
  have h : bigStore.length = 1000 := by simp [bigStore]
  constructor <;> simp [consoleLocalAppend, h]

/-- Claim C4 amended: the live-feed merge path does respect the capacity
bound. Starting from a store of at most 1000 entries, the store after one
onmessage merge equals the last 1000 entries of the deduplicated append
sequence (oldest evicted first), hence holds at most 1000 entries, and holds
exactly 1000 when the appended sequence exceeds 1000. The local command
append path trims nothing, as the counterexample shows. -/
theorem merge_capacity_bound (prev batch : List LogEntry)
    (h : prev.length ≤ 1000) :
    (mergeLogsMsg prev batch).length ≤ 1000 ∧
    mergeLogsMsg prev batch = lastN 1000 (mergeBatch prev batch).1 ∧
    (1000 < (mergeBatch prev batch).1.length →
      (mergeLogsMsg prev batch).length = 1000) := by
  have hlast : ∀ l : List LogEntry, (lastN 1000 l).length = l.length - (l.length - 1000) := by
    intro l
    simp [lastN]
  have heq : mergeLogsMsg prev batch = lastN 1000 (mergeBatch prev batch).1 := by
    by_cases hb : batch.length > 0
    · by_cases hm : (mergeBatch prev batch).2 = true
      · simp [mergeLogsMsg, hb, hm]
      · have hm' : (mergeBatch prev batch).2 = false := by
          simpa using hm
        have hfold : mergeBatch prev batch = (prev, false) :=
          foldl_dedupStep_false batch (prev, false) hm'
        rw [hfold]
        simp [mergeLogsMsg, hb, hfold, lastN, Nat.sub_eq_zero_of_le h]
    · have hempty : batch = [] := by
        cases batch with
        | nil => rfl
        | cons x xs => simp at hb
      subst hempty
      have hmb : mergeBatch prev [] = (prev, false) := rfl
      rw [hmb]
      simp [mergeLogsMsg, lastN, Nat.sub_eq_zero_of_le h]
  refine ⟨?_, heq, ?_⟩
  · rw [heq, hlast]
    omega
  · intro hgt
    rw [heq, hlast]
    omega

/-- Witness for the amended C4: merging [a@1, b@2] into the store [a@1]. -/
theorem merge_capacity_bound_witness :
    (mergeLogsMsg [entryA1] [entryA1, entryB2]).length ≤ 1000 ∧
    mergeLogsMsg [entryA1] [entryA1, entryB2] =
      lastN 1000 (mergeBatch [entryA1] [entryA1, entryB2]).1 ∧
    (1000 < (mergeBatch [entryA1] [entryA1, entryB2]).1.length →
      (mergeLogsMsg [entryA1] [entryA1, entryB2]).length = 1000) :=
  merge_capacity_bound [entryA1] [entryA1, entryB2] (by decide)

/-- The mutable locals of the console page live-feed effect: the
isComponentMounted flag, whether the eventSource variable has been assigned,
whether the channel is currently open, the resume cursor lastTimestamp, and
the logs store. -/
structure StreamState where
  mounted : Bool
  esExists : Bool
  channelOpen : Bool
  lastTimestamp : Option String
  logs : List LogEntry
deriving DecidableEq, Repr

/-- A request to open the live feed; since is the query parameter set from
lastTimestamp when one is known. -/
structure OpenRequest where
  since : Option String
deriving DecidableEq, Repr

/-- connectEventSource: a no-op when the component is unmounted; otherwise it
closes any existing channel and opens a new EventSource whose URL carries the
current lastTimestamp as the since parameter. -/
def connectES (s : StreamState) : StreamState × Option OpenRequest :=
  if s.mounted then
    ({ s with esExists := true, channelOpen := true }, some ⟨s.lastTimestamp⟩)
  else (s, none)

/-- The onmessage handler: a no-op when unmounted or the batch is empty;
otherwise the store is merged with dedup, and when at least one entry was
appended the trimmed store is installed and lastTimestamp is advanced to the
timestamp of its last entry. -/
def onMessage (s : StreamState) (batch : List LogEntry) : StreamState :=
  if s.mounted then
    if batch.length > 0 then
      if (mergeBatch s.logs batch).2 then
        { s with
          logs := lastN 1000 (mergeBatch s.logs batch).1,
          lastTimestamp :=
            ((lastN 1000 (mergeBatch s.logs batch).1).getLast?).map LogEntry.timestamp }
      else s
    else s
  else s

/-- The onerror handler: a no-op when unmounted; when the eventSource exists
it is closed and connectEventSource is scheduled via setTimeout with the
fixed 5000 ms delay, returned here as the scheduled delay. -/
def onError (s : StreamState) : StreamState × Option Nat :=
  if s.mounted then
    if s.esExists then ({ s with channelOpen := false }, some 5000)
    else (s, none)
  else (s, none)

/-- The effect cleanup: clears isComponentMounted and closes the channel. -/
def cleanup (s : StreamState) : StreamState :=
  { s with mounted := false, channelOpen := false }

/-- Claim C5: when the live feed errors on a mounted subscriber with an
existing channel, the channel is closed and a reconnect is scheduled with the
fixed 5000 ms delay; the fired reconnect re-opens the feed passing the resume
cursor as the since parameter; after any merge that changed the store, the
resume cursor equals the timestamp of the last stored (most recently merged)
entry; and entries already merged are not duplicated when redelivered after
the reconnect. -/
theorem stream_reconnect_on_error (s : StreamState)
    (h1 : s.mounted = true) (h2 : s.esExists = true) :
    (onError s).2 = some 5000 ∧
    (onError s).1.channelOpen = false ∧
    (connectES (onError s).1).2 = some ⟨s.lastTimestamp⟩ ∧
    (connectES (onError s).1).1.logs = s.logs ∧
    (∀ (prev : StreamState) (batch : List LogEntry),
      (onMessage prev batch).logs ≠ prev.logs →
      (onMessage prev batch).lastTimestamp =
        ((onMessage prev batch).logs.getLast?).map LogEntry.timestamp) ∧
    (∀ batch : List LogEntry,
      (∀ e ∈ batch, ∃ p ∈ s.logs, p.timestamp = e.timestamp ∧ p.content = e.content) →
      (onMessage (connectES (onError s).1).1 batch).logs = s.logs) := by
  refine ⟨by simp [onError, h1, h2], by simp [onError, h1, h2],
    by simp [onError, connectES, h1, h2], by simp [onError, connectES, h1, h2],
    ?_, ?_⟩
  · intro prev batch hne
    by_cases hm : prev.mounted = true
    · by_cases hbl : batch.length > 0
      · by_cases hm2 : (mergeBatch prev.logs batch).2 = true
        · simp [onMessage, hm, hbl, hm2]
        · exact absurd (by simp [onMessage, hm, hbl, hm2]) hne
      · exact absurd (by simp [onMessage, hm, hbl]) hne
    · exact absurd (by simp [onMessage, hm]) hne
  · intro batch hall
    have hlogs : (connectES (onError s).1).1.logs = s.logs := by
      simp [onError, connectES, h1, h2]
    have hmnt : (connectES (onError s).1).1.mounted = true := by
      simp [onError, connectES, h1, h2]
    have hfold : mergeBatch s.logs batch = (s.logs, false) :=
      foldl_dedupStep_all_dup s.logs false batch hall
    by_cases hbl : batch.length > 0
    · simp [onMessage, hmnt, hbl, hlogs, hfold]
    · simp [onMessage, hmnt, hbl, hlogs]

/-- Demo stream state: mounted, channel present, cursor at timestamp 3. -/
def sDemo : StreamState := ⟨true, true, true, some "3", [entryA1]⟩

/-- Witness for C5 at the demo state: error schedules the 5000 ms reconnect,
the reconnect passes since = the stored cursor, and redelivering the already
merged entry leaves the store unchanged. -/
theorem stream_reconnect_on_error_witness :
    (onError sDemo).2 = some 5000 ∧
    (connectES (onError sDemo).1).2 = some ⟨sDemo.lastTimestamp⟩ ∧
    (onMessage (connectES (onError sDemo).1).1 [entryA1]).logs = sDemo.logs :=
  ⟨(stream_reconnect_on_error sDemo rfl rfl).1,
   (stream_reconnect_on_error sDemo rfl rfl).2.2.1,
   (stream_reconnect_on_error sDemo rfl rfl).2.2.2.2.2 [entryA1] (by decide)⟩

/-- Claim C6: after the effect cleanup has run, a reconnect callback that
subsequently fires is a no-op: it opens no event channel and leaves the state
unchanged, and the channel stays closed — for every state in which the timer
was scheduled. -/
theorem no_reconnect_after_teardown (s : StreamState) :
    (connectES (cleanup s)).2 = none ∧
    (connectES (cleanup s)).1 = cleanup s ∧
    (cleanup s).channelOpen = false := by
  simp [connectES, cleanup]

/-- Outcome of the WebSocket proxy GET: the HTTP status returned to the
client and whether the upstream handshake request was issued. -/
structure ProxyOutcome where
  status : Nat
  upstreamContacted : Bool
deriving DecidableEq, Repr

/-- Per-character lowercasing of a string, the embedding of the JavaScript
toLowerCase call on the Upgrade header value. -/
def lowerStr (s : String) : String :=
  ⟨s.data.map Char.toLower⟩

/-- The WebSocket proxy route GET: a request whose Upgrade header is missing,
empty (falsy), or not equal to websocket after lowercasing is answered 426
without contacting the upstream; otherwise the upstream handshake is issued,
a non-101 upstream status is answered 502, and a 101 upstream status is
forwarded as 101. -/
def wsProxyGET (upgradeHeader : Option String) (upstreamStatus : Nat) : ProxyOutcome :=
  match upgradeHeader with
  | none => ⟨426, false⟩
  | some h =>
    if h = "" then ⟨426, false⟩
    else if lowerStr h ≠ "websocket" then ⟨426, false⟩
    else if upstreamStatus ≠ 101 then ⟨502, true⟩
    else ⟨101, true⟩

/-- Claim C7: a GET without an Upgrade header equal (case-insensitively) to
websocket is answered 426 and the upstream handshake is never issued; when
the header is valid and the upstream handshake answers anything other than
101, the proxy answers 502. -/
theorem ws_upgrade_gate (hdr : Option String) (up : Nat) :
    ((∀ h, hdr = some h → lowerStr h ≠ "websocket") →
      wsProxyGET hdr up = ⟨426, false⟩) ∧
    (∀ h, hdr = some h → lowerStr h = "websocket" → up ≠ 101 →
      wsProxyGET hdr up = ⟨502, true⟩) := by
  constructor
  · intro hno
    match hdr with
    | none => rfl
    | some h =>
      have hh := hno h rfl
      by_cases he : h = ""
      · simp [wsProxyGET, he]
      · simp [wsProxyGET, he, hh]
  · intro h hh heq hup
    subst hh
    have hne : h ≠ "" := by
      intro h0
      subst h0
      exact absurd heq (by decide)
    simp [wsProxyGET, hne, heq, hup]

/-- Witness for C7: the header xhr is answered 426 without an upstream
handshake; the header WebSocket with a 200 upstream handshake is answered
502. -/
theorem ws_upgrade_gate_witness :
    wsProxyGET (some "xhr") 200 = ⟨426, false⟩ ∧
    wsProxyGET (some "WebSocket") 200 = ⟨502, true⟩ :=
  ⟨(ws_upgrade_gate (some "xhr") 200).1
      (by intro h hh; simp at hh; subst hh; decide),
   (ws_upgrade_gate (some "WebSocket") 200).2 "WebSocket" rfl (by decide) (by decide)⟩

/-- The test event.startsWith of the SSE relay loop, over the character
list of the event block. -/
def startsWithData (ev : String) : Bool :=
  List.isPrefixOf "data: ".data ev.data

/-- event.slice(6): the payload after the six-character data marker. -/
def payloadOf (ev : String) : String :=
  ⟨ev.data.drop 6⟩

/-- The event relay frame processing of the console stream SSE route: each
event block that starts with the data marker has its payload parsed, parsed
payloads are enqueued in order, and a payload that fails to parse is logged
and skipped while processing continues. The JSON parser of the runtime is
abstracted as a function returning none on malformed input. -/
def relayEvents {J : Type} (parse : String → Option J) (events : List String) : List J :=
  events.filterMap (fun ev => if startsWithData ev then parse (payloadOf ev) else none)

/-- Splitting one decoded upstream chunk into event blocks, as in the route:
split on the blank-line delimiter, then filter(Boolean) dropping empties. -/
def relayChunk {J : Type} (parse : String → Option J) (text : String) : List J :=
  relayEvents parse ((text.splitOn "\n\n").filter (fun e => e != ""))

/-- Claim C8: a data frame whose payload fails to parse is skipped while the
channel stays open — the frames before and after it are still forwarded, in
order; and a well-formed data frame is forwarded with exactly its parsed JSON
payload, wherever it sits in the sequence. -/
theorem relay_skips_malformed {J : Type} (parse : String → Option J) :
    (∀ (pre post : List String) (bad : String),
      startsWithData bad = true → parse (payloadOf bad) = none →
      relayEvents parse (pre ++ bad :: post) =
        relayEvents parse pre ++ relayEvents parse post) ∧
    (∀ (pre post : List String) (good : String) (j : J),
      startsWithData good = true → parse (payloadOf good) = some j →
      relayEvents parse (pre ++ good :: post) =
        relayEvents parse pre ++ j :: relayEvents parse post) := by
  constructor
  · intro pre post bad h1 h2
    simp [relayEvents, List.filterMap_append, List.filterMap_cons, h1, h2]
  · intro pre post good j h1 h2
    simp [relayEvents, List.filterMap_append, List.filterMap_cons, h1, h2]

/-- A concrete stand-in for the JSON parser: accepts only the payload 7. -/
def parseDemo (s : String) : Option Nat :=
  if s = "7" then some 7 else none

/-- Witness for C8: the malformed frame is dropped and the later well-formed
frame still comes through; a well-formed frame is forwarded as its payload. -/
theorem relay_skips_malformed_witness :
    relayEvents parseDemo ([] ++ "data: oops" :: ["data: 7"]) =
      relayEvents parseDemo [] ++ relayEvents parseDemo ["data: 7"] ∧
    relayEvents parseDemo ([] ++ "data: 7" :: []) =
      relayEvents parseDemo [] ++ 7 :: relayEvents parseDemo [] :=
  ⟨(relay_skips_malformed parseDemo).1 [] ["data: 7"] "data: oops"
      (by decide) (by decide),
   (relay_skips_malformed parseDemo).2 [] [] "data: 7" 7 (by decide) (by decide)⟩

end MCSOLOL
